import Mathlib

/-!
Verification of the Frame Timeline subsystem and the refresh-rate selector
(SurfaceFlinger, `FrameTimeline.cpp` / `RefreshRateConfigs.cpp`).

The C++ sources are shallowly embedded: `nsecs_t` (a signed 64-bit count of
nanoseconds) is modelled as `Int` (no property proved here depends on 64-bit
wraparound), `float` scores and rates are modelled as `ℚ`, stateful methods
are functions from the object state to the new state, and side effects on
the stats / tracing sinks are returned as explicit event lists.
-/

/-- `nsecs_t`: nanosecond timestamps. -/
abbrev Nsecs := Int

/-- `TimelineItem`: triple of nanosecond timestamps; zero means unknown. -/
structure TimelineItem where
  startTime : Nsecs := 0
  endTime : Nsecs := 0
  presentTime : Nsecs := 0
  deriving Repr, DecidableEq

/-- `PredictionState` of a frame's token. -/
inductive PredictionState where
  | None
  | Expired
  | Valid
  deriving Repr, DecidableEq

/-! ## TokenManager

`TokenManager` owns `mPredictions`, a `std::map` keyed by the (monotonically
increasing) token; each value holds the insertion wall-clock stamp and the
predictions.  The map is modelled as a list in ascending key order, each
element bundling the key (token) and the mapped value. -/

structure TokenManagerEntry where
  token : Int
  timestamp : Nsecs
  predictions : TimelineItem
  deriving Repr, DecidableEq

structure TokenManager where
  mCurrentToken : Int
  mPredictions : List TokenManagerEntry
  deriving Repr, DecidableEq

/-- `kMaxRetentionTime = std::chrono::nanoseconds(120ms).count()`. -/
def kMaxRetentionTime : Nsecs := 120000000

/-- Loop body of `TokenManager::flushTokens`: erase from the head while the
entry is older than the retention window, break at the first young entry. -/
def flushLoop (flushTime : Nsecs) : List TokenManagerEntry → List TokenManagerEntry
  | [] => []
  | e :: rest =>
    if flushTime - e.timestamp ≥ kMaxRetentionTime then
      flushLoop flushTime rest
    else
      -- Tokens are ordered by time: the remaining entries are all younger.
      e :: rest

/-- `TokenManager::flushTokens`. -/
def TokenManager.flushTokens (tm : TokenManager) (flushTime : Nsecs) : TokenManager :=
  { tm with mPredictions := flushLoop flushTime tm.mPredictions }

/-- `TokenManager::getPredictionsForToken`. -/
def TokenManager.getPredictionsForToken (tm : TokenManager) (token : Int) :
    Option TimelineItem :=
  (tm.mPredictions.find? (fun e => e.token == token)).map (·.predictions)

/-- `TokenManager::generateTokenForPredictions`; `now` stands for the
`systemTime()` call at insertion (the same reference is used for the flush). -/
def TokenManager.generateTokenForPredictions (tm : TokenManager) (now : Nsecs)
    (predictions : TimelineItem) : TokenManager × Int :=
  let assignedToken := tm.mCurrentToken
  let tm' : TokenManager :=
    { mCurrentToken := tm.mCurrentToken + 1
      mPredictions := tm.mPredictions ++ [⟨assignedToken, now, predictions⟩] }
  (tm'.flushTokens now, assignedToken)

/-- The entries kept by the flush loop form a sublist of the input. -/
lemma flushLoop_sublist (flushTime : Nsecs) :
    ∀ l : List TokenManagerEntry, (flushLoop flushTime l).Sublist l := by
  intro l
  induction l with
  | nil => simp [flushLoop]
  | cons e rest ih =>
    by_cases h : flushTime - e.timestamp ≥ kMaxRetentionTime
    · simpa [flushLoop, h] using ih.cons e
    · simp [flushLoop, h]

/-- In a list with pairwise-distinct tokens, `find?` on an element's token
returns that element. -/
lemma find_token_of_mem :
    ∀ l : List TokenManagerEntry, l.Pairwise (fun a b => a.token ≠ b.token) →
      ∀ e ∈ l, l.find? (fun x => x.token == e.token) = some e := by
  intro l
  induction l with
  | nil => intro _ e he; simp at he
  | cons a rest ih =>
    intro hp e he
    rcases List.mem_cons.mp he with rfl | he'
    · simp [List.find?]
    · have hne : a.token ≠ e.token := (List.pairwise_cons.mp hp).1 e he'
      have : (a.token == e.token) = false := by simpa using hne
      simp only [List.find?, this]
      exact ih (List.pairwise_cons.mp hp).2 e he'

/-- C3, retention behaviour of `flushTokens`.  The two `Pairwise` hypotheses
are the `std::map` / minting invariants: strictly increasing keys (hence
distinct), and timestamps non-decreasing in key order (tokens are minted with
monotonic `systemTime()`). -/
lemma flushLoop_spec (refTime : Nsecs) :
    ∀ l : List TokenManagerEntry,
      l.Pairwise (fun a b => a.timestamp ≤ b.timestamp) →
      l.Pairwise (fun a b => a.token ≠ b.token) →
      ∀ e ∈ l,
        (refTime - e.timestamp ≥ kMaxRetentionTime →
          (flushLoop refTime l).find? (fun x => x.token == e.token) = none) ∧
        (refTime - e.timestamp < kMaxRetentionTime →
          (flushLoop refTime l).find? (fun x => x.token == e.token) = some e) := by
  intro l
  induction l with
  | nil => intro _ _ e he; simp at he
  | cons a rest ih =>
    intro hts htok e he
    have hts' := List.pairwise_cons.mp hts
    have htok' := List.pairwise_cons.mp htok
    by_cases hc : refTime - a.timestamp ≥ kMaxRetentionTime
    · -- the head is erased and the loop continues on the tail
      rcases List.mem_cons.mp he with rfl | he'
      · refine ⟨fun _ => ?_, fun hlt => absurd hc (not_le.mpr hlt)⟩
        -- a's token occurs nowhere in the tail, hence nowhere in the flushed tail
        rw [show flushLoop refTime (e :: rest) = flushLoop refTime rest from by
          simp [flushLoop, hc]]
        apply List.find?_eq_none.mpr
        intro x hx
        have hxrest : x ∈ rest := (flushLoop_sublist refTime rest).mem hx
        have hne : e.token ≠ x.token := htok'.1 x hxrest
        simp only [beq_iff_eq]
        exact fun hbeq => hne hbeq.symm
      · simpa [flushLoop, hc] using ih hts'.2 htok'.2 e he'
    · -- the head is young: the loop breaks and the list is left intact
      rcases List.mem_cons.mp he with rfl | he'
      · refine ⟨fun hge => absurd hge hc, fun _ => ?_⟩
        simp [flushLoop, hc, List.find?]
      · have hyoung : refTime - e.timestamp < kMaxRetentionTime := by
          have h1 : a.timestamp ≤ e.timestamp := hts'.1 e he'
          exact lt_of_le_of_lt (sub_le_sub_left h1 refTime) (not_le.mp hc)
        refine ⟨fun hge => absurd hge (not_le.mpr hyoung), fun _ => ?_⟩
        have hne : a.token ≠ e.token := htok'.1 e he'
        have hbeq : (a.token == e.token) = false := by simpa using hne
        simp only [flushLoop, if_neg hc, List.find?, hbeq]
        exact find_token_of_mem rest htok'.2 e he'

/-- C3: after `flushTokens(referenceTime)`, every token whose insertion
timestamp fell out of the retention window (in particular every token older
than `referenceTime - kMaxRetentionTime`) resolves to `none` through
`getPredictionsForToken`, while every younger token still resolves to its
predictions.  The hypotheses are the `std::map`/minting invariants of
`mPredictions` (distinct keys; timestamps non-decreasing in key order). -/
theorem tokenManager_flushTokens_retention (tm : TokenManager) (refTime : Nsecs)
    (hts : tm.mPredictions.Pairwise (fun a b => a.timestamp ≤ b.timestamp))
    (htok : tm.mPredictions.Pairwise (fun a b => a.token ≠ b.token))
    (e : TokenManagerEntry) (he : e ∈ tm.mPredictions) :
    (refTime - e.timestamp ≥ kMaxRetentionTime →
      (tm.flushTokens refTime).getPredictionsForToken e.token = none) ∧
    (refTime - e.timestamp < kMaxRetentionTime →
      (tm.flushTokens refTime).getPredictionsForToken e.token = some e.predictions) := by
  have h := flushLoop_spec refTime tm.mPredictions hts htok e he
  constructor
  · intro hold
    simp [TokenManager.flushTokens, TokenManager.getPredictionsForToken, h.1 hold]
  · intro hyoung
    simp [TokenManager.flushTokens, TokenManager.getPredictionsForToken, h.2 hyoung]

/-- Concrete run of `tokenManager_flushTokens_retention`: token 7 (stamped at
time 0) is evicted by a flush at `0 + kMaxRetentionTime`, token 8 (stamped at
time 100) survives it. -/
theorem tokenManager_flushTokens_retention_witness :
    (TokenManager.flushTokens
        ⟨9, [⟨7, 0, ⟨0, 0, 0⟩⟩, ⟨8, 100, ⟨10, 20, 30⟩⟩]⟩ kMaxRetentionTime
      ).getPredictionsForToken 7 = none ∧
    (TokenManager.flushTokens
        ⟨9, [⟨7, 0, ⟨0, 0, 0⟩⟩, ⟨8, 100, ⟨10, 20, 30⟩⟩]⟩ kMaxRetentionTime
      ).getPredictionsForToken 8 = some ⟨10, 20, 30⟩ := by
  constructor
  · exact (tokenManager_flushTokens_retention
      ⟨9, [⟨7, 0, ⟨0, 0, 0⟩⟩, ⟨8, 100, ⟨10, 20, 30⟩⟩]⟩ kMaxRetentionTime
      (by decide) (by decide) ⟨7, 0, ⟨0, 0, 0⟩⟩ (by decide)).1 (by decide)
  · exact (tokenManager_flushTokens_retention
      ⟨9, [⟨7, 0, ⟨0, 0, 0⟩⟩, ⟨8, 100, ⟨10, 20, 30⟩⟩]⟩ kMaxRetentionTime
      (by decide) (by decide) ⟨8, 100, ⟨10, 20, 30⟩⟩ (by decide)).2 (by decide)

/-! ## SurfaceFrame

`JankType` is a bitmask (`int32_t`); the bits below are modelled from the
spec.  The classification logic itself is embedded from
`SurfaceFrame::onPresent` in the source. -/

/-- Modelled from the spec: `JankType::None == 0`; the spec names the bitmask
members but their numeric bit assignments live in a header that is not part
of the sources, so distinct single bits are assigned here. -/
def JankType.None : Nat := 0

/-- Modelled from the spec: see `JankType.None`. -/
def JankType.DisplayHAL : Nat := 1

/-- Modelled from the spec: see `JankType.None`. -/
def JankType.SurfaceFlingerCpuDeadlineMissed : Nat := 2

/-- Modelled from the spec: see `JankType.None`. -/
def JankType.SurfaceFlingerGpuDeadlineMissed : Nat := 4

/-- Modelled from the spec: see `JankType.None`. -/
def JankType.AppDeadlineMissed : Nat := 8

/-- Modelled from the spec: see `JankType.None`. -/
def JankType.PredictionError : Nat := 16

/-- Modelled from the spec: see `JankType.None`. -/
def JankType.SurfaceFlingerScheduling : Nat := 32

/-- Modelled from the spec: see `JankType.None` (`BufferStuffing = 2 ^ 6`). -/
def JankType.BufferStuffing : Nat := 64

/-- Modelled from the spec: see `JankType.None`. -/
def JankType.Unknown : Nat := 128

inductive FramePresentMetadata where
  | OnTimePresent
  | LatePresent
  | EarlyPresent
  | UnknownPresent
  deriving Repr, DecidableEq

inductive FrameReadyMetadata where
  | OnTimeFinish
  | LateFinish
  | UnknownFinish
  deriving Repr, DecidableEq

inductive FrameStartMetadata where
  | OnTimeStart
  | LateStart
  | EarlyStart
  | UnknownStart
  deriving Repr, DecidableEq

/-- Jank classification thresholds (ns).  Defaults modelled from the spec
(`present_threshold = 2 ms`, `deadline_threshold = 0 ms`); no claim relies on
the default values. -/
structure JankClassificationThresholds where
  presentThreshold : Nsecs := 2000000
  deadlineThreshold : Nsecs := 0
  startThreshold : Nsecs := 2000000
  deriving Repr, DecidableEq

inductive PresentState where
  | Presented
  | Dropped
  | Unknown
  deriving Repr, DecidableEq

/-- Calls made on the stats sink (`TimeStats`), in program order:
`incrementJankyFrames(uid, layerName, mask)` and `incrementJankyFrames(mask)`. -/
inductive StatsEvent where
  | jankyFramesLayer (uid : Nat) (layerName : String) (jankMask : Nat)
  | jankyFrames (jankMask : Nat)
  deriving Repr, DecidableEq

/-- `true` exactly on the one-argument `incrementJankyFrames` overload. -/
def StatsEvent.isOneArg : StatsEvent → Bool
  | .jankyFrames _ => true
  | .jankyFramesLayer _ _ _ => false

/-- Mutable state of a `SurfaceFrame` (the fields guarded by `mMutex`). -/
structure SurfaceFrame where
  mToken : Int
  mOwnerPid : Int
  mOwnerUid : Nat
  mLayerName : String
  mDebugName : String
  mPresentState : PresentState
  mPredictionState : PredictionState
  mPredictions : TimelineItem
  mActuals : TimelineItem
  mActualQueueTime : Nsecs
  mLastLatchTime : Nsecs
  mJankType : Nat
  mFramePresentMetadata : FramePresentMetadata
  mFrameReadyMetadata : FrameReadyMetadata
  mGpuComposition : Bool
  mJankClassificationThresholds : JankClassificationThresholds
  deriving Repr, DecidableEq

/-- `SurfaceFrame::SurfaceFrame`: the constructor sets the fields of its init
list (`mPresentState = Unknown`, `mActuals = {0, 0, 0}`); the remaining
members keep their in-class defaults, modelled from the spec (queue/latch
times unknown i.e. 0, `jank_type = None`, metadata `Unknown*`). -/
def mkSurfaceFrame (token : Int) (ownerPid : Int) (ownerUid : Nat)
    (layerName debugName : String) (predictionState : PredictionState)
    (predictions : TimelineItem)
    (thresholds : JankClassificationThresholds) : SurfaceFrame :=
  { mToken := token
    mOwnerPid := ownerPid
    mOwnerUid := ownerUid
    mLayerName := layerName
    mDebugName := debugName
    mPresentState := PresentState.Unknown
    mPredictionState := predictionState
    mPredictions := predictions
    mActuals := ⟨0, 0, 0⟩
    mActualQueueTime := 0
    mLastLatchTime := 0
    mJankType := JankType.None
    mFramePresentMetadata := FramePresentMetadata.UnknownPresent
    mFrameReadyMetadata := FrameReadyMetadata.UnknownFinish
    mGpuComposition := false
    mJankClassificationThresholds := thresholds }

/-- `SurfaceFrame::setActualStartTime`. -/
def SurfaceFrame.setActualStartTime (f : SurfaceFrame) (t : Nsecs) : SurfaceFrame :=
  { f with mActuals := { f.mActuals with startTime := t } }

/-- `SurfaceFrame::setActualQueueTime`: records the queue time only. -/
def SurfaceFrame.setActualQueueTime (f : SurfaceFrame) (t : Nsecs) : SurfaceFrame :=
  { f with mActualQueueTime := t }

/-- `SurfaceFrame::setAcquireFenceTime`:
`mActuals.endTime = std::max(acquireFenceTime, mActualQueueTime)`. -/
def SurfaceFrame.setAcquireFenceTime (f : SurfaceFrame) (t : Nsecs) : SurfaceFrame :=
  { f with mActuals := { f.mActuals with endTime := max t f.mActualQueueTime } }

/-- `SurfaceFrame::setPresentState`. -/
def SurfaceFrame.setPresentState (f : SurfaceFrame) (s : PresentState)
    (lastLatchTime : Nsecs) : SurfaceFrame :=
  { f with mPresentState := s, mLastLatchTime := lastLatchTime }

/-- `SurfaceFrame::getJankType`: `nullopt` until the enclosing DisplayFrame
has assigned a present time. -/
def SurfaceFrame.getJankType (f : SurfaceFrame) : Option Nat :=
  if f.mActuals.presentTime = 0 then none else some f.mJankType

/-- `SurfaceFrame::onPresent(presentTime, displayFrameJankType, vsyncPeriod)`:
returns the updated frame and the stats-sink calls it makes. -/
def SurfaceFrame.onPresent (f : SurfaceFrame) (presentTime : Nsecs)
    (displayFrameJankType : Nat) (vsyncPeriod : Nsecs) :
    SurfaceFrame × List StatsEvent :=
  if f.mPresentState ≠ PresentState.Presented then
    -- No need to update dropped buffers
    (f, [])
  else
    let f1 := { f with mActuals := { f.mActuals with presentTime := presentTime } }
    if f1.mPredictionState = PredictionState.None then
      -- Cannot do jank classification on frames that don't have a token.
      (f1, [])
    else if f1.mPredictionState = PredictionState.Expired then
      let f2 := { f1 with
        mJankType := JankType.Unknown
        mFramePresentMetadata := FramePresentMetadata.UnknownPresent
        mFrameReadyMetadata := FrameReadyMetadata.UnknownFinish }
      (f2, [StatsEvent.jankyFramesLayer f2.mOwnerUid f2.mLayerName f2.mJankType])
    else
      let presentDelta := f1.mActuals.presentTime - f1.mPredictions.presentTime
      let deadlineDelta := f1.mActuals.endTime - f1.mPredictions.endTime
      let deltaToVsync := |presentDelta| % vsyncPeriod
      let frameReadyMetadata :=
        if deadlineDelta > f1.mJankClassificationThresholds.deadlineThreshold then
          FrameReadyMetadata.LateFinish
        else
          FrameReadyMetadata.OnTimeFinish
      let framePresentMetadata :=
        if |presentDelta| > f1.mJankClassificationThresholds.presentThreshold then
          (if presentDelta > 0 then FramePresentMetadata.LatePresent
           else FramePresentMetadata.EarlyPresent)
        else FramePresentMetadata.OnTimePresent
      let jankType :=
        if framePresentMetadata = FramePresentMetadata.OnTimePresent then
          -- Frames presented on time are not janky.
          JankType.None
        else if framePresentMetadata = FramePresentMetadata.EarlyPresent then
          (if frameReadyMetadata = FrameReadyMetadata.OnTimeFinish then
            (if deltaToVsync < f1.mJankClassificationThresholds.presentThreshold ∨
                deltaToVsync ≥
                  vsyncPeriod - f1.mJankClassificationThresholds.presentThreshold then
              JankType.SurfaceFlingerScheduling
            else
              JankType.PredictionError)
          else if frameReadyMetadata = FrameReadyMetadata.LateFinish then
            JankType.Unknown
          else f1.mJankType)
        else
          -- LatePresent: the buffer-stuffing check happens first, with |=
          let stuffed :=
            if f1.mLastLatchTime ≠ 0 ∧ f1.mPredictions.endTime ≤ f1.mLastLatchTime then
              f1.mJankType ||| JankType.BufferStuffing
            else f1.mJankType
          if frameReadyMetadata = FrameReadyMetadata.OnTimeFinish then
            (if displayFrameJankType ≠ JankType.None then
              stuffed ||| displayFrameJankType
            else if deltaToVsync < f1.mJankClassificationThresholds.presentThreshold ∨
                deltaToVsync ≥
                  vsyncPeriod - f1.mJankClassificationThresholds.presentThreshold then
              stuffed ||| JankType.SurfaceFlingerScheduling
            else
              stuffed ||| JankType.PredictionError)
          else if frameReadyMetadata = FrameReadyMetadata.LateFinish then
            (if displayFrameJankType = JankType.None then
              stuffed ||| JankType.AppDeadlineMissed
            else
              stuffed ||| displayFrameJankType)
          else stuffed
      let f2 := { f1 with
        mFrameReadyMetadata := frameReadyMetadata
        mFramePresentMetadata := framePresentMetadata
        mJankType := jankType }
      (f2, [StatsEvent.jankyFramesLayer f2.mOwnerUid f2.mLayerName f2.mJankType])

/-- Fresh frame (no prediction) used by the C4 counterexample. -/
def sfQueueCex : SurfaceFrame :=
  mkSurfaceFrame 1 10 0 "layer1" "layer1" PredictionState.None ⟨0, 0, 0⟩ {}

/-- C4 counterexample: with the calls interleaved as
`set_acquire_fence_time(5)` then `set_actual_queue_time(10)`, the frame ends
with `actuals.end = 5`, not `max(10, 5) = 10` — the claimed write-order
independence fails. -/
theorem surfaceFrame_actualsEnd_order_cex :
    ((sfQueueCex.setAcquireFenceTime 5).setActualQueueTime 10).mActuals.endTime = 5 ∧
    ¬ ((sfQueueCex.setAcquireFenceTime 5).setActualQueueTime 10).mActuals.endTime
        = max 10 5 := by
  constructor
  · rfl
  · decide

/-- C4 (amended): `actuals.end = max(a, b)` holds after
`set_actual_queue_time(a)` followed by `set_acquire_fence_time(b)`; in the
reverse order `actuals.end` is `max(b, queue-time-in-effect)` and the later
queue write leaves it unchanged. -/
theorem surfaceFrame_actualsEnd_write_order (f : SurfaceFrame) (a b : Nsecs) :
    ((f.setActualQueueTime a).setAcquireFenceTime b).mActuals.endTime = max a b ∧
    ((f.setAcquireFenceTime b).setActualQueueTime a).mActuals.endTime
      = max b f.mActualQueueTime := by
  refine ⟨?_, rfl⟩
  simp [SurfaceFrame.setActualQueueTime, SurfaceFrame.setAcquireFenceTime, max_comm]

/-- C6: `onPresent` on a frame whose present state is not `Presented`
(dropped or unknown) returns the frame unchanged — in particular
`actuals.present` stays 0 — and makes no stats call. -/
theorem surfaceFrame_onPresent_not_presented_noop (f : SurfaceFrame) (t : Nsecs)
    (parentJank : Nat) (vp : Nsecs)
    (h : f.mPresentState ≠ PresentState.Presented) :
    f.onPresent t parentJank vp = (f, []) := by
  simp only [SurfaceFrame.onPresent, if_pos h]

/-- Valid-prediction frame marked `Dropped`, for the C6 witness. -/
def sfDroppedCex : SurfaceFrame :=
  (mkSurfaceFrame 2 10 0 "layer1" "layer1" PredictionState.Valid
      ⟨10, 20, 30⟩ {}).setPresentState PresentState.Dropped 0

/-- Concrete run of `surfaceFrame_onPresent_not_presented_noop` on a dropped
frame. -/
theorem surfaceFrame_onPresent_not_presented_noop_witness :
    sfDroppedCex.onPresent 42 JankType.None 10 = (sfDroppedCex, []) :=
  surfaceFrame_onPresent_not_presented_noop sfDroppedCex 42 JankType.None 10 (by decide)

/-- Presented, Valid frame that presents exactly on time while the
buffer-stuffing condition (`last_latch_time != 0 ∧ predictions.end ≤
last_latch_time`) holds; used by the C5 counterexample. -/
def sfStuffingCex : SurfaceFrame :=
  ((mkSurfaceFrame 3 10 0 "layer1" "layer1" PredictionState.Valid
      ⟨0, 10, 100⟩ ⟨5, 0, 5⟩).setPresentState PresentState.Presented 50)

/-- C5 counterexample: the buffer-stuffing condition holds and the frame
reaches the classification matrix, but because it presents on time
(`present_delta = 0`) the code never reaches the `|= BufferStuffing` line:
the resulting `jank_type` is `None`, its `BufferStuffing` bit (bit 6) clear —
the "regardless of which present metadata" part of the claim fails. -/
theorem surfaceFrame_bufferStuffing_onTime_cex :
    sfStuffingCex.mLastLatchTime ≠ 0 ∧
    sfStuffingCex.mPredictions.endTime ≤ sfStuffingCex.mLastLatchTime ∧
    (sfStuffingCex.onPresent 100 JankType.None 11).1.mFramePresentMetadata
      = FramePresentMetadata.OnTimePresent ∧
    Nat.testBit (sfStuffingCex.onPresent 100 JankType.None 11).1.mJankType 6 = false := by
  refine ⟨by decide, by decide, by decide, by decide⟩

/-- C5 (amended): on a presented frame with Valid predictions, whenever the
present metadata computes to `LatePresent` (`|present_delta|` above the
threshold and positive) and `last_latch_time != 0 ∧ predictions.end ≤
last_latch_time`, the `BufferStuffing` bit is OR'd into `jank_type` —
regardless of the finish metadata and of the parent jank. -/
theorem surfaceFrame_bufferStuffing_late_present (f : SurfaceFrame) (t : Nsecs)
    (parentJank : Nat) (vp : Nsecs)
    (hp : f.mPresentState = PresentState.Presented)
    (hv : f.mPredictionState = PredictionState.Valid)
    (hlatch : f.mLastLatchTime ≠ 0)
    (hend : f.mPredictions.endTime ≤ f.mLastLatchTime)
    (habs : |t - f.mPredictions.presentTime| >
      f.mJankClassificationThresholds.presentThreshold)
    (hpos : t - f.mPredictions.presentTime > 0) :
    Nat.testBit (f.onPresent t parentJank vp).1.mJankType 6 = true := by
  have h64 : Nat.testBit JankType.BufferStuffing 6 = true := by decide
  simp only [SurfaceFrame.onPresent, hp, hv, ne_eq, not_true_eq_false, if_false,
    reduceCtorEq, if_true]
  simp only [habs, hpos, hlatch, hend, and_true, ne_eq, not_false_eq_true,
    if_true, if_pos]
  repeat' split
  all_goals simp_all [Nat.testBit_lor, h64]

/-- Presented, Valid frame presenting late with the buffer-stuffing condition
true; used by the C5 witness. -/
def sfStuffingLate : SurfaceFrame :=
  ((mkSurfaceFrame 4 10 0 "layer1" "layer1" PredictionState.Valid
      ⟨0, 10, 100⟩ ⟨5, 0, 5⟩).setPresentState PresentState.Presented 50)

/-- Concrete run of `surfaceFrame_bufferStuffing_late_present`. -/
theorem surfaceFrame_bufferStuffing_late_present_witness :
    Nat.testBit (sfStuffingLate.onPresent 110 JankType.None 11).1.mJankType 6 = true :=
  surfaceFrame_bufferStuffing_late_present sfStuffingLate 110 JankType.None 11
    (by decide) (by decide) (by decide) (by decide) (by decide) (by decide)

/-! ## DisplayFrame -/

/-- Modelled from the spec: `ISurfaceComposer::INVALID_VSYNC_ID` is a
compile-time negative sentinel (its header is not part of the sources). -/
def INVALID_VSYNC_ID : Int := -1

/-- State of `FrameTimeline::DisplayFrame`. -/
structure DisplayFrame where
  mToken : Int
  mVsyncPeriod : Nsecs
  mPredictionState : PredictionState
  mSurfaceFlingerPredictions : TimelineItem
  mSurfaceFlingerActuals : TimelineItem
  mSurfaceFrames : List SurfaceFrame
  mJankType : Nat
  mFramePresentMetadata : FramePresentMetadata
  mFrameReadyMetadata : FrameReadyMetadata
  mFrameStartMetadata : FrameStartMetadata
  mGpuComposition : Bool
  mJankClassificationThresholds : JankClassificationThresholds
  deriving Repr, DecidableEq

/-- `DisplayFrame::DisplayFrame`: zeroed predictions/actuals and the given
thresholds; the remaining members keep their in-class defaults, modelled from
the spec (invalid token, no prediction, `jank_type = None`, `Unknown*`
metadata). -/
def mkDisplayFrame (thresholds : JankClassificationThresholds) : DisplayFrame :=
  { mToken := INVALID_VSYNC_ID
    mVsyncPeriod := 0
    mPredictionState := PredictionState.None
    mSurfaceFlingerPredictions := ⟨0, 0, 0⟩
    mSurfaceFlingerActuals := ⟨0, 0, 0⟩
    mSurfaceFrames := []
    mJankType := JankType.None
    mFramePresentMetadata := FramePresentMetadata.UnknownPresent
    mFrameReadyMetadata := FrameReadyMetadata.UnknownFinish
    mFrameStartMetadata := FrameStartMetadata.UnknownStart
    mGpuComposition := false
    mJankClassificationThresholds := thresholds }

/-- `DisplayFrame::addSurfaceFrame`: append in submission order. -/
def DisplayFrame.addSurfaceFrame (df : DisplayFrame) (sf : SurfaceFrame) : DisplayFrame :=
  { df with mSurfaceFrames := df.mSurfaceFrames ++ [sf] }

/-- `DisplayFrame::onSfWakeUp`. -/
def DisplayFrame.onSfWakeUp (df : DisplayFrame) (token : Int) (vsyncPeriod : Nsecs)
    (predictions : Option TimelineItem) (wakeUpTime : Nsecs) : DisplayFrame :=
  let df1 := { df with mToken := token, mVsyncPeriod := vsyncPeriod }
  let df2 :=
    match predictions with
    | none => { df1 with mPredictionState := PredictionState.Expired }
    | some p => { df1 with mPredictionState := PredictionState.Valid
                           mSurfaceFlingerPredictions := p }
  { df2 with mSurfaceFlingerActuals :=
      { df2.mSurfaceFlingerActuals with startTime := wakeUpTime } }

/-- `DisplayFrame::setActualEndTime`. -/
def DisplayFrame.setActualEndTime (df : DisplayFrame) (t : Nsecs) : DisplayFrame :=
  { df with mSurfaceFlingerActuals := { df.mSurfaceFlingerActuals with endTime := t } }

/-- The `for (auto& surfaceFrame : mSurfaceFrames)` loop of
`DisplayFrame::onPresent`: classifies each SurfaceFrame, collects the
re-written frames, accumulates `totalJankReasons`, and gathers the stats
calls, carrying the accumulator `(frames, totalJankReasons, events)`. -/
def presentSurfaceFrames (signalTime : Nsecs) (jank : Nat) (vsyncPeriod : Nsecs) :
    List SurfaceFrame → List SurfaceFrame × Nat × List StatsEvent →
      List SurfaceFrame × Nat × List StatsEvent
  | [], acc => acc
  | sf :: rest, acc =>
    let r := sf.onPresent signalTime jank vsyncPeriod
    let total :=
      match r.1.getJankType with
      | some j => acc.2.1 ||| j
      | none => acc.2.1
    presentSurfaceFrames signalTime jank vsyncPeriod rest
      (acc.1 ++ [r.1], total, acc.2.2 ++ r.2)

/-- First phase of `FrameTimeline::DisplayFrame::onPresent(signalTime)`:
record the present time and classify the DisplayFrame itself (metadata and
`mJankType`), before the surface-frame loop runs. -/
def DisplayFrame.classifyOnPresent (df : DisplayFrame) (signalTime : Nsecs) :
    DisplayFrame :=
  let df1 := { df with mSurfaceFlingerActuals :=
      { df.mSurfaceFlingerActuals with presentTime := signalTime } }
  let presentDelta := df1.mSurfaceFlingerActuals.presentTime -
      df1.mSurfaceFlingerPredictions.presentTime
  let deltaToVsync := |presentDelta| % df1.mVsyncPeriod
  let framePresentMetadata :=
    if |presentDelta| > df1.mJankClassificationThresholds.presentThreshold then
      (if presentDelta > 0 then FramePresentMetadata.LatePresent
       else FramePresentMetadata.EarlyPresent)
    else FramePresentMetadata.OnTimePresent
  let frameReadyMetadata :=
    if df1.mSurfaceFlingerActuals.endTime - df1.mSurfaceFlingerPredictions.endTime >
        df1.mJankClassificationThresholds.deadlineThreshold then
      FrameReadyMetadata.LateFinish
    else FrameReadyMetadata.OnTimeFinish
  let frameStartMetadata :=
    if |df1.mSurfaceFlingerActuals.startTime -
        df1.mSurfaceFlingerPredictions.startTime| >
        df1.mJankClassificationThresholds.startThreshold then
      (if df1.mSurfaceFlingerActuals.startTime >
          df1.mSurfaceFlingerPredictions.startTime then
        FrameStartMetadata.LateStart
      else FrameStartMetadata.EarlyStart)
    else
      -- the source assigns start metadata only outside the threshold
      df1.mFrameStartMetadata
  let jankType :=
    if framePresentMetadata ≠ FramePresentMetadata.OnTimePresent then
      (if framePresentMetadata = FramePresentMetadata.EarlyPresent then
        (if frameReadyMetadata = FrameReadyMetadata.OnTimeFinish then
          (if deltaToVsync < df1.mJankClassificationThresholds.presentThreshold ∨
              deltaToVsync ≥
                df1.mVsyncPeriod - df1.mJankClassificationThresholds.presentThreshold then
            JankType.SurfaceFlingerScheduling
          else
            JankType.PredictionError)
        else if frameReadyMetadata = FrameReadyMetadata.LateFinish then
          -- Finish late, Present early
          JankType.SurfaceFlingerScheduling
        else
          -- Finish time unknown
          JankType.Unknown)
      else if framePresentMetadata = FramePresentMetadata.LatePresent then
        (if frameReadyMetadata = FrameReadyMetadata.OnTimeFinish then
          (if deltaToVsync < df1.mJankClassificationThresholds.presentThreshold ∨
              deltaToVsync ≥
                df1.mVsyncPeriod - df1.mJankClassificationThresholds.presentThreshold then
            JankType.DisplayHAL
          else
            JankType.PredictionError)
        else if frameReadyMetadata = FrameReadyMetadata.LateFinish then
          -- Finish late, Present late
          JankType.SurfaceFlingerCpuDeadlineMissed
        else
          JankType.Unknown)
      else
        -- Present unknown
        JankType.Unknown)
    else
      -- jank classification only if present is not on time
      df1.mJankType
  { df1 with
    mFramePresentMetadata := framePresentMetadata
    mFrameReadyMetadata := frameReadyMetadata
    mFrameStartMetadata := frameStartMetadata
    mJankType := jankType }

/-- `FrameTimeline::DisplayFrame::onPresent(signalTime)`: records the present
time and classifies the DisplayFrame (`classifyOnPresent`), dispatches
`onPresent` to every contained SurfaceFrame with its own jank as parent
(`totalJankReasons` starting from `JankType::None`, OR-ing first the
DisplayFrame's own jank), and makes one aggregated
`incrementJankyFrames(totalJankReasons)` call. -/
def DisplayFrame.onPresent (df : DisplayFrame) (signalTime : Nsecs) :
    DisplayFrame × List StatsEvent :=
  let df2 := df.classifyOnPresent signalTime
  let loop := presentSurfaceFrames signalTime df2.mJankType df2.mVsyncPeriod
      df2.mSurfaceFrames ([], JankType.None ||| df2.mJankType, [])
  ({ df2 with mSurfaceFrames := loop.1 },
    loop.2.2 ++ [StatsEvent.jankyFrames loop.2.1])

/-- The frames collected by the surface-frame loop: the prefix already
accumulated followed by each input frame after its own `onPresent`. -/
lemma presentSurfaceFrames_frames (t : Nsecs) (j : Nat) (vp : Nsecs) :
    ∀ (l fs : List SurfaceFrame) (tot : Nat) (evs : List StatsEvent),
      (presentSurfaceFrames t j vp l (fs, tot, evs)).1
        = fs ++ l.map (fun sf => (sf.onPresent t j vp).1) := by
  intro l
  induction l with
  | nil => intro fs tot evs; simp [presentSurfaceFrames]
  | cons sf rest ih => intro fs tot evs; simp [presentSurfaceFrames, ih]

/-- The `totalJankReasons` accumulated by the surface-frame loop: the OR of
the seed with the post-classification jank of every frame whose present time
is set (`getJankType` is `nullopt` exactly when it is 0). -/
lemma presentSurfaceFrames_total (t : Nsecs) (j : Nat) (vp : Nsecs) :
    ∀ (l fs : List SurfaceFrame) (tot : Nat) (evs : List StatsEvent),
      (presentSurfaceFrames t j vp l (fs, tot, evs)).2.1
        = l.foldl (fun acc sf =>
            if ((sf.onPresent t j vp).1).mActuals.presentTime = 0 then acc
            else acc ||| ((sf.onPresent t j vp).1).mJankType) tot := by
  intro l
  induction l with
  | nil => intro fs tot evs; simp [presentSurfaceFrames]
  | cons sf rest ih =>
    intro fs tot evs
    by_cases hz : ((sf.onPresent t j vp).1).mActuals.presentTime = 0
    · simp [presentSurfaceFrames, SurfaceFrame.getJankType, hz, ih]
    · simp [presentSurfaceFrames, SurfaceFrame.getJankType, hz, ih]

/-- `SurfaceFrame::onPresent` only ever calls the three-argument
`incrementJankyFrames(uid, layer, mask)` overload. -/
lemma surfaceFrame_onPresent_events_threeArg (f : SurfaceFrame) (t : Nsecs)
    (j : Nat) (vp : Nsecs) :
    ((f.onPresent t j vp).2).filter (·.isOneArg) = [] := by
  by_cases h1 : f.mPresentState ≠ PresentState.Presented
  · simp [SurfaceFrame.onPresent, h1]
  · by_cases h2 : f.mPredictionState = PredictionState.None
    · simp [SurfaceFrame.onPresent, h1, h2, StatsEvent.isOneArg]
    · by_cases h3 : f.mPredictionState = PredictionState.Expired
      · simp [SurfaceFrame.onPresent, h1, h2, h3, StatsEvent.isOneArg]
      · simp only [SurfaceFrame.onPresent, h1, h2, h3, if_false, ite_false]
        simp [StatsEvent.isOneArg]

/-- The surface-frame loop adds no one-argument stats call. -/
lemma presentSurfaceFrames_events (t : Nsecs) (j : Nat) (vp : Nsecs) :
    ∀ (l fs : List SurfaceFrame) (tot : Nat) (evs : List StatsEvent),
      ((presentSurfaceFrames t j vp l (fs, tot, evs)).2.2).filter (·.isOneArg)
        = evs.filter (·.isOneArg) := by
  intro l
  induction l with
  | nil => intro fs tot evs; simp [presentSurfaceFrames]
  | cons sf rest ih =>
    intro fs tot evs
    simp [presentSurfaceFrames, ih, List.filter_append,
      surfaceFrame_onPresent_events_threeArg sf t j vp]

/-- C10: each `DisplayFrame::onPresent` run makes exactly one one-argument
`incrementJankyFrames(mask)` call, whose mask is the OR of the
DisplayFrame's own (post-classification) jank type with the jank type of
every contained SurfaceFrame whose `actuals.present` is nonzero after
classification; dropped or unclassified frames contribute nothing. -/
theorem displayFrame_onPresent_single_aggregate_jank_stats
    (df : DisplayFrame) (signalTime : Nsecs) :
    ((df.onPresent signalTime).2).filter (·.isOneArg)
      = [StatsEvent.jankyFrames
          (((df.onPresent signalTime).1.mSurfaceFrames).foldl
            (fun acc sf =>
              if sf.mActuals.presentTime = 0 then acc else acc ||| sf.mJankType)
            ((df.onPresent signalTime).1.mJankType))] := by
  have hmain : ∀ df2 : DisplayFrame,
      ((presentSurfaceFrames signalTime df2.mJankType df2.mVsyncPeriod
          df2.mSurfaceFrames ([], JankType.None ||| df2.mJankType, [])).2.2 ++
        [StatsEvent.jankyFrames
          (presentSurfaceFrames signalTime df2.mJankType df2.mVsyncPeriod
            df2.mSurfaceFrames ([], JankType.None ||| df2.mJankType, [])).2.1]
        ).filter (·.isOneArg)
      = [StatsEvent.jankyFrames
          (((presentSurfaceFrames signalTime df2.mJankType df2.mVsyncPeriod
              df2.mSurfaceFrames ([], JankType.None ||| df2.mJankType, [])).1).foldl
            (fun acc sf =>
              if sf.mActuals.presentTime = 0 then acc else acc ||| sf.mJankType)
            df2.mJankType)] := by
    intro df2
    rw [List.filter_append, presentSurfaceFrames_events,
      presentSurfaceFrames_frames, presentSurfaceFrames_total]
    simp [StatsEvent.isOneArg, List.foldl_map, JankType.None]
  exact hmain (df.classifyOnPresent signalTime)

/-- The DisplayFrame-level classification leaves the surface-frame list
untouched. -/
lemma classifyOnPresent_mSurfaceFrames (df : DisplayFrame) (t : Nsecs) :
    (df.classifyOnPresent t).mSurfaceFrames = df.mSurfaceFrames := rfl

/-- The DisplayFrame-level classification leaves the vsync period untouched. -/
lemma classifyOnPresent_mVsyncPeriod (df : DisplayFrame) (t : Nsecs) :
    (df.classifyOnPresent t).mVsyncPeriod = df.mVsyncPeriod := rfl

/-- The classified DisplayFrame's jank is the jank computed by
`classifyOnPresent`. -/
lemma displayFrame_onPresent_fst_mJankType (df : DisplayFrame) (t : Nsecs) :
    (df.onPresent t).1.mJankType = (df.classifyOnPresent t).mJankType := rfl

/-- After `onPresent`, the surface-frame list is the submission-ordered map of
each frame through its own `onPresent`, with the DisplayFrame's jank as
parent. -/
lemma displayFrame_onPresent_fst_frames (df : DisplayFrame) (t : Nsecs) :
    (df.onPresent t).1.mSurfaceFrames
      = df.mSurfaceFrames.map (fun sf =>
          (sf.onPresent t (df.classifyOnPresent t).mJankType
            (df.classifyOnPresent t).mVsyncPeriod).1) := by
  show (presentSurfaceFrames t (df.classifyOnPresent t).mJankType
      (df.classifyOnPresent t).mVsyncPeriod (df.classifyOnPresent t).mSurfaceFrames
      ([], JankType.None ||| (df.classifyOnPresent t).mJankType, [])).1 = _
  rw [presentSurfaceFrames_frames, classifyOnPresent_mSurfaceFrames]
  simp

/-- C2: a DisplayFrame whose reconciliation computes `LatePresent` and
`LateFinish` is classified `SurfaceFlingerCpuDeadlineMissed` (Table 4.3), and
its SurfaceFrames are each re-classified by `onPresent` with that jank as
parent and the frame's vsync period; and (Table 4.2) a presented SurfaceFrame
with Valid predictions, late present, late finish, no buffer stuffing and
parent jank `None` is classified `AppDeadlineMissed`. -/
theorem displayFrame_onPresent_late_late_classification :
    (∀ (df : DisplayFrame) (signalTime : Nsecs),
      |signalTime - df.mSurfaceFlingerPredictions.presentTime| >
          df.mJankClassificationThresholds.presentThreshold →
      signalTime - df.mSurfaceFlingerPredictions.presentTime > 0 →
      df.mSurfaceFlingerActuals.endTime - df.mSurfaceFlingerPredictions.endTime >
          df.mJankClassificationThresholds.deadlineThreshold →
      (df.onPresent signalTime).1.mJankType
          = JankType.SurfaceFlingerCpuDeadlineMissed ∧
      (df.onPresent signalTime).1.mSurfaceFrames
          = df.mSurfaceFrames.map (fun sf =>
              (sf.onPresent signalTime JankType.SurfaceFlingerCpuDeadlineMissed
                df.mVsyncPeriod).1)) ∧
    (∀ (sf : SurfaceFrame) (t vp : Nsecs),
      sf.mPresentState = PresentState.Presented →
      sf.mPredictionState = PredictionState.Valid →
      sf.mJankType = JankType.None →
      ¬(sf.mLastLatchTime ≠ 0 ∧ sf.mPredictions.endTime ≤ sf.mLastLatchTime) →
      |t - sf.mPredictions.presentTime| >
          sf.mJankClassificationThresholds.presentThreshold →
      t - sf.mPredictions.presentTime > 0 →
      sf.mActuals.endTime - sf.mPredictions.endTime >
          sf.mJankClassificationThresholds.deadlineThreshold →
      (sf.onPresent t JankType.None vp).1.mJankType = JankType.AppDeadlineMissed) := by
  constructor
  · intro df signalTime habs hpos hlateF
    have hjank : (df.classifyOnPresent signalTime).mJankType
        = JankType.SurfaceFlingerCpuDeadlineMissed := by
      simp only [DisplayFrame.classifyOnPresent]
      simp [habs, hpos, hlateF]
    refine ⟨by rw [displayFrame_onPresent_fst_mJankType, hjank], ?_⟩
    rw [displayFrame_onPresent_fst_frames, hjank, classifyOnPresent_mVsyncPeriod]
  · intro sf t vp hp hv hj hstuff habs hpos hlateF
    simp only [SurfaceFrame.onPresent, hp, hv, ne_eq, not_true_eq_false, if_false,
      reduceCtorEq, if_true]
    simp [habs, hpos, hstuff, hlateF, hj, JankType.None, JankType.AppDeadlineMissed]

/-- Presented, Valid app frame (late acquire, late present, latch time 0)
used by the C2 witness. -/
def sfAppEx : SurfaceFrame :=
  ((mkSurfaceFrame 5 10 0 "layer1" "layer1" PredictionState.Valid
      ⟨0, 10, 100⟩ ⟨5, 0, 5⟩).setPresentState
        PresentState.Presented 0).setAcquireFenceTime 45

/-- Late-present, late-finish DisplayFrame containing `sfAppEx`, for the C2
witness. -/
def dfLateEx : DisplayFrame :=
  { mkDisplayFrame ⟨5, 0, 5⟩ with
      mToken := 42
      mVsyncPeriod := 11
      mPredictionState := PredictionState.Valid
      mSurfaceFlingerPredictions := ⟨0, 10, 100⟩
      mSurfaceFlingerActuals := ⟨1, 20, 0⟩
      mSurfaceFrames := [sfAppEx] }

/-- Concrete run of `displayFrame_onPresent_late_late_classification`: fence
signal at 110 against predicted present 100 (threshold 5, deadline delta 10)
classifies the DisplayFrame `SurfaceFlingerCpuDeadlineMissed`; the contained
app frame with parent jank `None` classifies `AppDeadlineMissed`. -/
theorem displayFrame_onPresent_late_late_witness :
    ((dfLateEx.onPresent 110).1.mJankType = JankType.SurfaceFlingerCpuDeadlineMissed ∧
      (dfLateEx.onPresent 110).1.mSurfaceFrames =
        dfLateEx.mSurfaceFrames.map (fun sf =>
          (sf.onPresent 110 JankType.SurfaceFlingerCpuDeadlineMissed
            dfLateEx.mVsyncPeriod).1)) ∧
    (sfAppEx.onPresent 110 JankType.None 11).1.mJankType
      = JankType.AppDeadlineMissed :=
  ⟨displayFrame_onPresent_late_late_classification.1 dfLateEx 110
      (by decide) (by decide) (by decide),
   displayFrame_onPresent_late_late_classification.2 sfAppEx 110 11
      (by decide) (by decide) (by decide) (by decide) (by decide) (by decide)
      (by decide)⟩

/-! ## Trace emission and present-fence reconciliation -/

/-- Frame-timeline packets emitted on the tracing sink, identified by their
tokens (the remaining packet fields play no role in the claims settled
here). -/
inductive TracePacket where
  | displayFramePacket (token : Int)
  | surfaceFramePacket (token : Int) (displayFrameToken : Int)
  deriving Repr, DecidableEq

/-- `SurfaceFrame::trace(displayFrameToken)`: emits nothing when the frame's
own token or the display frame's token is invalid, else one SurfaceFrame
packet. -/
def SurfaceFrame.trace (f : SurfaceFrame) (displayFrameToken : Int) : List TracePacket :=
  if f.mToken = INVALID_VSYNC_ID then []
  else if displayFrameToken = INVALID_VSYNC_ID then []
  else [TracePacket.surfaceFramePacket f.mToken displayFrameToken]

/-- `FrameTimeline::DisplayFrame::trace`: one DisplayFrame packet unless the
token is invalid, then each SurfaceFrame's packet. -/
def DisplayFrame.trace (df : DisplayFrame) : List TracePacket :=
  (if df.mToken = INVALID_VSYNC_ID then [] else [TracePacket.displayFramePacket df.mToken]) ++
    (df.mSurfaceFrames.map (fun sf => sf.trace df.mToken)).flatten

/-- Observable state of a pending present fence at poll time: a missing or
invalid fence object and a `SIGNAL_TIME_INVALID` read both collapse to
`invalid`; `SIGNAL_TIME_PENDING` reads as `pending`; any other signal time is
`signaled t`. -/
inductive FenceSignal where
  | pending
  | invalid
  | signaled (t : Nsecs)
  deriving Repr, DecidableEq

/-- `FrameTimeline::flushPendingPresentFences`, iterating the pending FIFO
from the head.  A `pending` entry is left in place and — via `continue` —
iteration proceeds with the next entry; an `invalid` entry is erased without
classification; a `signaled` entry is classified (`onPresent`), traced, and
erased.  Returns the remaining FIFO, the classified frames (with their
signal times, in invocation order), the stats calls and the trace packets. -/
def flushPendingPresentFences :
    List (FenceSignal × DisplayFrame) →
      List (FenceSignal × DisplayFrame) × List (DisplayFrame × Nsecs) ×
        List StatsEvent × List TracePacket
  | [] => ([], [], [], [])
  | (fence, df) :: rest =>
    match fence with
    | FenceSignal.pending =>
      let r := flushPendingPresentFences rest
      ((fence, df) :: r.1, r.2)
    | FenceSignal.invalid =>
      flushPendingPresentFences rest
    | FenceSignal.signaled t =>
      let p := df.onPresent t
      let pkts := p.1.trace
      let r := flushPendingPresentFences rest
      (r.1, (p.1, t) :: r.2.1, p.2 ++ r.2.2.1, pkts ++ r.2.2.2)

/-- DisplayFrame with a pending fence, enqueued first (C1 counterexample). -/
def dfFirstPending : DisplayFrame :=
  { mkDisplayFrame {} with mToken := 1 }

/-- DisplayFrame with a signaled fence, enqueued second (C1 counterexample). -/
def dfSecondSignaled : DisplayFrame :=
  { mkDisplayFrame {} with mToken := 2 }

/-- C1 counterexample: with the FIFO `[(pending, frame 1), (signaled 42,
frame 2)]`, the flush does **not** stop at the pending head: frame 2 is
classified (`onPresent` at 42) and traced while frame 1's pending entry is
still in the FIFO — contradicting the claimed stop-at-first-pending
discipline. -/
theorem flushPendingPresentFences_pending_cex :
    (flushPendingPresentFences
        [(FenceSignal.pending, dfFirstPending),
         (FenceSignal.signaled 42, dfSecondSignaled)]).1
      = [(FenceSignal.pending, dfFirstPending)] ∧
    ((flushPendingPresentFences
        [(FenceSignal.pending, dfFirstPending),
         (FenceSignal.signaled 42, dfSecondSignaled)]).2.1).map
        (fun p => (p.1.mToken, p.2))
      = [(2, 42)] ∧
    (flushPendingPresentFences
        [(FenceSignal.pending, dfFirstPending),
         (FenceSignal.signaled 42, dfSecondSignaled)]).2.2.2
      = [TracePacket.displayFramePacket 2] := by
  refine ⟨by decide, by decide, by decide⟩

/-- C1 (amended): `flushPendingPresentFences` walks the whole FIFO once; the
entries left in the FIFO are exactly the pending ones (in order), and the
frames classified — and then traced, in the same order — are exactly the
signaled ones in FIFO order; invalid entries are dropped without
classification.  A pending entry therefore does not stop reconciliation of
later signaled frames. -/
theorem flushPendingPresentFences_characterization
    (fences : List (FenceSignal × DisplayFrame)) :
    (flushPendingPresentFences fences).1
      = fences.filter (fun e => e.1 == FenceSignal.pending) ∧
    (flushPendingPresentFences fences).2.1
      = fences.filterMap (fun e =>
          match e.1 with
          | FenceSignal.signaled t => some ((e.2.onPresent t).1, t)
          | _ => none) ∧
    (flushPendingPresentFences fences).2.2.2
      = (((flushPendingPresentFences fences).2.1).map (fun p => p.1.trace)).flatten := by
  induction fences with
  | nil => simp [flushPendingPresentFences]
  | cons e rest ih =>
    obtain ⟨f, df⟩ := e
    cases f with
    | pending => simp [flushPendingPresentFences, ih.1, ih.2.1, ih.2.2]
    | invalid => simp [flushPendingPresentFences, ih.1, ih.2.1, ih.2.2]
    | signaled t => simp [flushPendingPresentFences, ih.1, ih.2.1, ih.2.2]

/-! ## getMinTime / base time (dump rendering) -/

/-- `getMinTime` (`FrameTimeline.cpp`), embedded faithfully: note that the
`actuals.presentTime != 0` branch takes the minimum against
`actuals.endTime` — exactly as the source does.  The seed is
`std::numeric_limits<nsecs_t>::max()`. -/
def getMinTime (predictionState : PredictionState)
    (predictions actuals : TimelineItem) : Nsecs :=
  let minTime : Nsecs := 9223372036854775807
  -- Checking start time for predictions is enough: start ≤ end ≤ present.
  let minTime :=
    if predictionState = PredictionState.Valid then min minTime predictions.startTime
    else minTime
  let minTime := if actuals.startTime ≠ 0 then min minTime actuals.startTime else minTime
  let minTime := if actuals.endTime ≠ 0 then min minTime actuals.endTime else minTime
  if actuals.presentTime ≠ 0 then min minTime actuals.endTime else minTime

/-- Modelled from the spec: `min_time = min(predictions.start if Valid,
nonzero(actuals.start), nonzero(actuals.end), nonzero(actuals.present))` —
the intended behaviour of `getMinTime`, used to witness the divergence. -/
def getMinTimeSpec (predictionState : PredictionState)
    (predictions actuals : TimelineItem) : Nsecs :=
  let minTime : Nsecs := 9223372036854775807
  let minTime :=
    if predictionState = PredictionState.Valid then min minTime predictions.startTime
    else minTime
  let minTime := if actuals.startTime ≠ 0 then min minTime actuals.startTime else minTime
  let minTime := if actuals.endTime ≠ 0 then min minTime actuals.endTime else minTime
  if actuals.presentTime ≠ 0 then min minTime actuals.presentTime else minTime

/-- `SurfaceFrame::getBaseTime`. -/
def SurfaceFrame.getBaseTime (f : SurfaceFrame) : Nsecs :=
  getMinTime f.mPredictionState f.mPredictions f.mActuals

/-- `FrameTimeline::DisplayFrame::getBaseTime`: fold the SurfaceFrames' base
times (skipping zero ones) into the DisplayFrame's own `getMinTime`. -/
def DisplayFrame.getBaseTime (df : DisplayFrame) : Nsecs :=
  df.mSurfaceFrames.foldl
    (fun baseTime sf =>
      if sf.getBaseTime ≠ 0 then min baseTime sf.getBaseTime else baseTime)
    (getMinTime df.mPredictionState df.mSurfaceFlingerPredictions
      df.mSurfaceFlingerActuals)

/-- DisplayFrame whose actuals are `(start 10, end 8, present 5)`; its
smallest timestamp is `actuals.present = 5` (C7 failing input). -/
def dfMinCex : DisplayFrame :=
  { mkDisplayFrame {} with mSurfaceFlingerActuals := ⟨10, 8, 5⟩ }

/-- C7: on actuals `(10, 8, 5)` with no predictions, the dump base time
computed by the code is 8 (`actuals.end`), not the true minimum 5
(`actuals.present`): the `presentTime` branch of `getMinTime` erroneously
compares against `endTime`, contradicting the function's stated purpose
("Returns the smallest timestamp") and the claim. -/
theorem getMinTime_presentTime_bug :
    dfMinCex.getBaseTime = 8 ∧
    getMinTime PredictionState.None ⟨0, 0, 0⟩ ⟨10, 8, 5⟩ = 8 ∧
    getMinTimeSpec PredictionState.None ⟨0, 0, 0⟩ ⟨10, 8, 5⟩ = 5 ∧
    getMinTime PredictionState.None ⟨0, 0, 0⟩ ⟨10, 8, 5⟩
      ≠ getMinTimeSpec PredictionState.None ⟨0, 0, 0⟩ ⟨10, 8, 5⟩ := by
  refine ⟨by decide, by decide, by decide, by decide⟩

/-! ## RefreshRateConfigs (`RefreshRateConfigs.cpp`)

Float arithmetic (`fps`, weights, scores) is modelled over `ℚ`. -/

inductive LayerVoteType where
  | NoVote
  | Min
  | Max
  | Heuristic
  | ExplicitDefault
  | ExplicitExactOrMultiple
  deriving Repr, DecidableEq

structure LayerRequirement where
  name : String
  vote : LayerVoteType
  desiredRefreshRate : ℚ
  weight : ℚ
  deriving Repr, DecidableEq

structure RefreshRate where
  configId : Nat
  vsyncPeriod : Int
  configGroup : Int
  name : String
  fps : ℚ
  deriving Repr, DecidableEq

/-- `MARGIN = std::chrono::nanoseconds(800us).count()` in
`getRefreshRateForContentV2`. -/
def MARGIN_V2 : Int := 800000

/-- `MAX_FRAMES_TO_FIT = 10`. -/
def MAX_FRAMES_TO_FIT : Nat := 10

/-- Number of layers with the given vote (the counting loop at the top of
`getRefreshRateForContentV2`). -/
def countVote (layers : List LayerRequirement) (v : LayerVoteType) : Nat :=
  (layers.filter (fun l => l.vote == v)).length

/-- The effective-weight adjustment of `getRefreshRateForContentV2`:
Heuristic layers are halved when any Explicit layer exists; Heuristic and
ExplicitDefault layers are halved (again) when any ExplicitExactOrMultiple
layer exists. -/
def adjustedLayerWeight (explicitDefaultVoteLayers
    explicitExactOrMultipleVoteLayers : Nat) (layer : LayerRequirement) : ℚ :=
  let weight := layer.weight
  let weight :=
    if explicitExactOrMultipleVoteLayers + explicitDefaultVoteLayers > 0 ∧
        layer.vote = LayerVoteType.Heuristic then
      weight / 2
    else weight
  if explicitExactOrMultipleVoteLayers > 0 ∧
      (layer.vote = LayerVoteType.Heuristic ∨
        layer.vote = LayerVoteType.ExplicitDefault) then
    weight / 2
  else weight

/-- Body of the cadence-fitting `while` loop, recursing structurally on the
remaining iteration budget: the loop guard `iter < MAX_FRAMES_TO_FIT` caps
the iteration count, so `MAX_FRAMES_TO_FIT - iter` units of fuel suffice
(when the fuel runs out, `iter = MAX_FRAMES_TO_FIT` and the guard is false
anyway). -/
def fitIterationsGo (displayPeriod : Int) : Nat → Int → Nat → Nat
  | 0, _, iter => iter
  | fuel + 1, diff, iter =>
    if diff > MARGIN_V2 ∧ iter < MAX_FRAMES_TO_FIT then
      fitIterationsGo displayPeriod fuel (diff - (displayPeriod - diff)) (iter + 1)
    else iter

/-- The cadence-fitting `while` loop of `getRefreshRateForContentV2`:
`while (diff > MARGIN && iter < MAX_FRAMES_TO_FIT) { diff -= displayPeriod - diff; iter++ }`. -/
def fitIterations (displayPeriod : Int) (diff : Int) (iter : Nat) : Nat :=
  fitIterationsGo displayPeriod (MAX_FRAMES_TO_FIT - iter) diff iter

/-- Per-(layer, refresh-rate) score of `getRefreshRateForContentV2`:
`layerPeriod = round(1e9 / desiredRefreshRate)`, `std::div` by the display
period (truncated division), the ±MARGIN snap to an exact multiple, then the
three scoring cases. -/
def calculateLayerScoreV2 (weight : ℚ) (desiredRefreshRate : ℚ)
    (displayPeriod : Int) : ℚ :=
  let layerPeriod : Int := round ((1000000000 : ℚ) / desiredRefreshRate)
  let displayFramesQuot := Int.tdiv layerPeriod displayPeriod
  let displayFramesRem := Int.tmod layerPeriod displayPeriod
  let qr :=
    if displayFramesRem ≤ MARGIN_V2 ∨
        |displayFramesRem - displayPeriod| ≤ MARGIN_V2 then
      (displayFramesQuot + 1, (0 : Int))
    else (displayFramesQuot, displayFramesRem)
  if qr.2 = 0 then
    -- layer rate matches the display rate
    weight * 1
  else if qr.1 = 0 then
    -- layer rate is higher than the display rate
    weight * ((layerPeriod : ℚ) / (displayPeriod : ℚ)) *
      (1 / ((MAX_FRAMES_TO_FIT : ℚ) + 1))
  else
    -- layer rate is lower than the display rate: cadence fit
    let diff := |qr.2 - (displayPeriod - qr.2)|
    let iter := fitIterations displayPeriod diff 2
    weight * (1 / (iter : ℚ))

/-- The scoring loops of `getRefreshRateForContentV2`: every available rate
starts at score 0; every layer that is not NoVote/Min/Max adds its
(weight-adjusted) per-rate score to each rate. -/
def scoreLayersV2 (availableRefreshRates : List RefreshRate)
    (layers : List LayerRequirement) : List (RefreshRate × ℚ) :=
  let explicitDefaultVoteLayers := countVote layers LayerVoteType.ExplicitDefault
  let explicitExactOrMultipleVoteLayers :=
    countVote layers LayerVoteType.ExplicitExactOrMultiple
  layers.foldl
    (fun scores layer =>
      if layer.vote = LayerVoteType.NoVote ∨ layer.vote = LayerVoteType.Min ∨
          layer.vote = LayerVoteType.Max then
        scores
      else
        let weight := adjustedLayerWeight explicitDefaultVoteLayers
          explicitExactOrMultipleVoteLayers layer
        scores.map (fun s =>
          (s.1, s.2 + calculateLayerScoreV2 weight layer.desiredRefreshRate
            s.1.vsyncPeriod)))
    (availableRefreshRates.map (fun r => (r, (0 : ℚ))))

/-- The selection loop of `getRefreshRateForContentV2`:
`max = 0; best = nullptr; for (rate, score): if (score > max) {max = score; best = rate}`. -/
def pickBestRefreshRate :
    List (RefreshRate × ℚ) → ℚ → Option RefreshRate → Option RefreshRate
  | [], _, best => best
  | s :: rest, m, best =>
    if s.2 > m then pickBestRefreshRate rest s.2 (some s.1)
    else pickBestRefreshRate rest m best

/-- `RefreshRateConfigs::getRefreshRateForContentV2`.  The `available`-list
front/back accesses are total in the source (`constructAvailableRefreshRates`
aborts on an empty list); `getD current` stands in for the unreachable empty
case. -/
def getRefreshRateForContentV2 (availableRefreshRates : List RefreshRate)
    (currentRefreshRate : RefreshRate) (layers : List LayerRequirement) :
    RefreshRate :=
  let noVoteLayers := countVote layers LayerVoteType.NoVote
  let minVoteLayers := countVote layers LayerVoteType.Min
  let maxVoteLayers := countVote layers LayerVoteType.Max
  let explicitDefaultVoteLayers := countVote layers LayerVoteType.ExplicitDefault
  let explicitExactOrMultipleVoteLayers :=
    countVote layers LayerVoteType.ExplicitExactOrMultiple
  -- Only if all layers want Min we should return Min
  if noVoteLayers + minVoteLayers = layers.length then
    (availableRefreshRates.head?).getD currentRefreshRate
  -- If we have some Max layers and no Explicit we should return Max
  else if maxVoteLayers > 0 ∧
      explicitDefaultVoteLayers + explicitExactOrMultipleVoteLayers = 0 then
    (availableRefreshRates.getLast?).getD currentRefreshRate
  else
    match pickBestRefreshRate (scoreLayersV2 availableRefreshRates layers) 0 none with
    | none => currentRefreshRate
    | some best => best

/-- `RefreshRateConfigs::getSortedRefreshRateList`: filter `mRefreshRates`
then sort by `vsyncPeriod1 > vsyncPeriod2` (descending vsync period, i.e.
ascending fps); `std::sort` is modelled by a merge sort over the
corresponding total preorder. -/
def getSortedRefreshRateList (shouldAddRefreshRate : RefreshRate → Bool)
    (refreshRates : List RefreshRate) : List RefreshRate :=
  (refreshRates.filter shouldAddRefreshRate).mergeSort
    (fun a b => decide (b.vsyncPeriod ≤ a.vsyncPeriod))

/-- If no remaining score beats the running maximum, the selection loop keeps
the current best. -/
lemma pickBestRefreshRate_all_le :
    ∀ (scores : List (RefreshRate × ℚ)) (m : ℚ) (best : Option RefreshRate),
      (∀ s ∈ scores, s.2 ≤ m) → pickBestRefreshRate scores m best = best := by
  intro scores
  induction scores with
  | nil => intro m best _; rfl
  | cons s rest ih =>
    intro m best hall
    have hs : s.2 ≤ m := hall s (by simp)
    rw [pickBestRefreshRate, if_neg (not_lt.mpr hs)]
    exact ih m best fun x hx => hall x (by simp [hx])

/-- If some remaining score beats the running maximum, the selection loop
returns the first entry holding the maximum score: its score beats the seed
and every other score, and strictly beats every earlier score. -/
lemma pickBestRefreshRate_exists_gt :
    ∀ (scores : List (RefreshRate × ℚ)) (m : ℚ) (best : Option RefreshRate),
      (∃ s ∈ scores, m < s.2) →
      ∃ i, ∃ hi : i < scores.length,
        pickBestRefreshRate scores m best = some (scores.get ⟨i, hi⟩).1 ∧
        m < (scores.get ⟨i, hi⟩).2 ∧
        (∀ j, ∀ hj : j < scores.length,
          (scores.get ⟨j, hj⟩).2 ≤ (scores.get ⟨i, hi⟩).2) ∧
        (∀ j, ∀ hj : j < scores.length, j < i →
          (scores.get ⟨j, hj⟩).2 < (scores.get ⟨i, hi⟩).2) := by
  intro scores
  induction scores with
  | nil => intro m best h; simp at h
  | cons s rest ih =>
    intro m best hex
    by_cases hgt : s.2 > m
    · rw [pickBestRefreshRate, if_pos hgt]
      by_cases hall : ∀ x ∈ rest, x.2 ≤ s.2
      · refine ⟨0, by simp, ?_, hgt, ?_, ?_⟩
        · rw [pickBestRefreshRate_all_le rest s.2 (some s.1) hall]
          rfl
        · intro j hj
          match j with
          | 0 => simp
          | k + 1 =>
            simpa using hall (rest.get ⟨k, by simpa using hj⟩)
              (rest.get_mem k (by simpa using hj))
        · intro j hj hlt; omega
      · push_neg at hall
        obtain ⟨x, hx, hxs⟩ := hall
        obtain ⟨i', hi', heq, hm, hle, hstrict⟩ :=
          ih s.2 (some s.1) ⟨x, hx, hxs⟩
        refine ⟨i' + 1, by simpa using hi', ?_, lt_trans hgt hm, ?_, ?_⟩
        · simpa using heq
        · intro j hj
          match j with
          | 0 => simpa using le_of_lt hm
          | k + 1 => simpa using hle k (by simpa using hj)
        · intro j hj hlt
          match j with
          | 0 => simpa using hm
          | k + 1 => simpa using hstrict k (by simpa using hj) (by omega)
    · rw [pickBestRefreshRate, if_neg hgt]
      have hex' : ∃ x ∈ rest, m < x.2 := by
        obtain ⟨x, hx, hmx⟩ := hex
        rcases List.mem_cons.mp hx with rfl | hx'
        · exact absurd hmx hgt
        · exact ⟨x, hx', hmx⟩
      obtain ⟨i', hi', heq, hm, hle, hstrict⟩ := ih m best hex'
      refine ⟨i' + 1, by simpa using hi', ?_, hm, ?_, ?_⟩
      · simpa using heq
      · intro j hj
        match j with
        | 0 => simpa using le_trans (not_lt.mp hgt) (le_of_lt hm)
        | k + 1 => simpa using hle k (by simpa using hj)
      · intro j hj hlt
        match j with
        | 0 => simpa using lt_of_le_of_lt (not_lt.mp hgt) hm
        | k + 1 => simpa using hstrict k (by simpa using hj) (by omega)

/-- C8: once the vote mix reaches the scoring phase (neither the all-Min/
NoVote shortcut nor the Max shortcut fires), the selector returns the entry
of the per-rate score list with the strictly greatest summed score — on
ties, the one first in iteration order — and returns the current rate when
every score is ≤ 0; and the iteration order over `mAvailableRefreshRates`
(built by `getSortedRefreshRateList`) is descending vsync period, i.e.
ascending fps. -/
theorem getRefreshRateForContentV2_scoring_selection :
    (∀ (availableRefreshRates : List RefreshRate)
        (currentRefreshRate : RefreshRate) (layers : List LayerRequirement)
        (scores : List (RefreshRate × ℚ)),
      countVote layers LayerVoteType.NoVote + countVote layers LayerVoteType.Min
          ≠ layers.length →
      ¬(countVote layers LayerVoteType.Max > 0 ∧
          countVote layers LayerVoteType.ExplicitDefault +
            countVote layers LayerVoteType.ExplicitExactOrMultiple = 0) →
      scores = scoreLayersV2 availableRefreshRates layers →
      ((∀ s ∈ scores, s.2 ≤ 0) →
        getRefreshRateForContentV2 availableRefreshRates currentRefreshRate layers
          = currentRefreshRate) ∧
      ((∃ s ∈ scores, 0 < s.2) →
        ∃ i, ∃ hi : i < scores.length,
          getRefreshRateForContentV2 availableRefreshRates currentRefreshRate layers
            = (scores.get ⟨i, hi⟩).1 ∧
          0 < (scores.get ⟨i, hi⟩).2 ∧
          (∀ j, ∀ hj : j < scores.length,
            (scores.get ⟨j, hj⟩).2 ≤ (scores.get ⟨i, hi⟩).2) ∧
          (∀ j, ∀ hj : j < scores.length, j < i →
            (scores.get ⟨j, hj⟩).2 < (scores.get ⟨i, hi⟩).2))) ∧
    (∀ (shouldAddRefreshRate : RefreshRate → Bool) (rates : List RefreshRate),
      (getSortedRefreshRateList shouldAddRefreshRate rates).Pairwise
        (fun a b => b.vsyncPeriod ≤ a.vsyncPeriod)) := by
  constructor
  · intro available current layers scores h1 h2 hscores
    subst hscores
    have hres : getRefreshRateForContentV2 available current layers
        = match pickBestRefreshRate (scoreLayersV2 available layers) 0 none with
          | none => current
          | some best => best := by
      rw [getRefreshRateForContentV2, if_neg h1, if_neg h2]
    constructor
    · intro hall
      rw [hres, pickBestRefreshRate_all_le _ 0 none hall]
    · intro hex
      obtain ⟨i, hi, heq, hm, hle, hstrict⟩ :=
        pickBestRefreshRate_exists_gt _ 0 none hex
      exact ⟨i, hi, by rw [hres, heq], hm, hle, hstrict⟩
  · intro shouldAdd rates
    have h := @List.sorted_mergeSort RefreshRate
      (fun a b : RefreshRate => decide (b.vsyncPeriod ≤ a.vsyncPeriod))
      (fun a b c hab hbc => by
        simp only [decide_eq_true_eq] at *
        exact le_trans hbc hab)
      (fun a b => by
        simp only [Bool.or_eq_true, decide_eq_true_eq]
        exact le_total b.vsyncPeriod a.vsyncPeriod)
      (rates.filter shouldAdd)
    exact h.imp (fun hab => by simpa using hab)

/-- 60 Hz config (vsync period 16666667 ns). -/
def rate60 : RefreshRate := ⟨0, 16666667, 0, "60fps", 60⟩

/-- 90 Hz config (vsync period 11111111 ns). -/
def rate90 : RefreshRate := ⟨1, 11111111, 0, "90fps", 90⟩

/-- One Heuristic layer voting 45 fps with weight 1. -/
def layer45 : LayerRequirement := ⟨"heuristic45", LayerVoteType.Heuristic, 45, 1⟩

/-- Concrete run of `getRefreshRateForContentV2_scoring_selection`: one
Heuristic 45 fps layer against 60 Hz and 90 Hz — the 45 fps cadence divides
90 Hz exactly, so the selector picks the maximal-score entry; and a concrete
sorted list is pairwise descending in vsync period. -/
theorem getRefreshRateForContentV2_scoring_selection_witness :
    (∃ i, ∃ hi : i < (scoreLayersV2 [rate60, rate90] [layer45]).length,
      getRefreshRateForContentV2 [rate60, rate90] rate60 [layer45]
        = ((scoreLayersV2 [rate60, rate90] [layer45]).get ⟨i, hi⟩).1 ∧
      0 < ((scoreLayersV2 [rate60, rate90] [layer45]).get ⟨i, hi⟩).2 ∧
      (∀ j, ∀ hj : j < (scoreLayersV2 [rate60, rate90] [layer45]).length,
        ((scoreLayersV2 [rate60, rate90] [layer45]).get ⟨j, hj⟩).2
          ≤ ((scoreLayersV2 [rate60, rate90] [layer45]).get ⟨i, hi⟩).2) ∧
      (∀ j, ∀ hj : j < (scoreLayersV2 [rate60, rate90] [layer45]).length, j < i →
        ((scoreLayersV2 [rate60, rate90] [layer45]).get ⟨j, hj⟩).2
          < ((scoreLayersV2 [rate60, rate90] [layer45]).get ⟨i, hi⟩).2)) ∧
    (getSortedRefreshRateList (fun _ => true) [rate90, rate60]).Pairwise
      (fun a b => b.vsyncPeriod ≤ a.vsyncPeriod) :=
  ⟨(getRefreshRateForContentV2_scoring_selection.1 [rate60, rate90] rate60 [layer45]
      (scoreLayersV2 [rate60, rate90] [layer45]) (by decide) (by decide) rfl).2
      (by
        have h1 : round ((1000000000 : ℚ) / 45) = 22222222 := by
          rw [round_eq]; norm_num
        simp +decide [scoreLayersV2, countVote, adjustedLayerWeight, rate60,
          rate90, layer45, calculateLayerScoreV2, h1, fitIterations,
          fitIterationsGo, MARGIN_V2, MAX_FRAMES_TO_FIT]),
   getRefreshRateForContentV2_scoring_selection.2 (fun _ => true) [rate90, rate60]⟩

/-- The two `status_t` values `setPolicy` returns (`NO_ERROR` / `BAD_VALUE`). -/
inductive PolicyStatus where
  | NO_ERROR
  | BAD_VALUE
  deriving Repr, DecidableEq

/-- Modelled from the spec: `RefreshRate::inPolicy(min, max)` holds when the
rate's fps lies within `[min_fps, max_fps]` (the method body lives in a
header that is not part of the sources). -/
def RefreshRate.inPolicy (r : RefreshRate) (minRefreshRate maxRefreshRate : ℚ) :
    Prop :=
  minRefreshRate ≤ r.fps ∧ r.fps ≤ maxRefreshRate

instance (r : RefreshRate) (a b : ℚ) : Decidable (r.inPolicy a b) :=
  inferInstanceAs (Decidable (_ ∧ _))

/-- State of `RefreshRateConfigs`: the full config map (`std::map` keyed by
config id, modelled as an association list in ascending key order), the
current rate, the policy, and the derived available-rates list. -/
structure RefreshRateConfigs where
  mRefreshRates : List (Nat × RefreshRate)
  mCurrentRefreshRate : RefreshRate
  mDefaultConfig : Nat
  mMinRefreshRateFps : ℚ
  mMaxRefreshRateFps : ℚ
  mAvailableRefreshRates : List RefreshRate
  deriving Repr, DecidableEq

/-- `mRefreshRates.count(id) / mRefreshRates.at(id)` combined: the rate
stored under a config id, if any. -/
def RefreshRateConfigs.findRate (cfg : RefreshRateConfigs) (configId : Nat) :
    Option RefreshRate :=
  (cfg.mRefreshRates.find? (fun p => p.1 == configId)).map (·.2)

/-- `RefreshRateConfigs::constructAvailableRefreshRates`: keep the rates in
the default config's group whose fps is within the policy window, sorted by
descending vsync period.  (`at(mDefaultConfig)` is total in the source —
`setPolicy` validates the key first; `getD` covers the unreachable missing
key.) -/
def RefreshRateConfigs.constructAvailableRefreshRates (cfg : RefreshRateConfigs) :
    List RefreshRate :=
  let group := ((cfg.findRate cfg.mDefaultConfig).map (·.configGroup)).getD 0
  getSortedRefreshRateList
    (fun r => decide (r.configGroup = group ∧
      r.inPolicy cfg.mMinRefreshRateFps cfg.mMaxRefreshRateFps))
    (cfg.mRefreshRates.map (·.2))

/-- `RefreshRateConfigs::setPolicy`: returns the new state, the status, and
the `*outPolicyChanged` value. -/
def RefreshRateConfigs.setPolicy (cfg : RefreshRateConfigs)
    (defaultConfigId : Nat) (minRefreshRate maxRefreshRate : ℚ) :
    RefreshRateConfigs × PolicyStatus × Bool :=
  let policyChanged := defaultConfigId ≠ cfg.mDefaultConfig ∨
    minRefreshRate ≠ cfg.mMinRefreshRateFps ∨
    maxRefreshRate ≠ cfg.mMaxRefreshRateFps
  if ¬ policyChanged then
    (cfg, PolicyStatus.NO_ERROR, false)
  else
    -- defaultConfigId must be a valid config ID, and within the given range
    match cfg.findRate defaultConfigId with
    | none => (cfg, PolicyStatus.BAD_VALUE, true)
    | some refreshRate =>
      if ¬ refreshRate.inPolicy minRefreshRate maxRefreshRate then
        (cfg, PolicyStatus.BAD_VALUE, true)
      else
        let cfg1 := { cfg with
          mDefaultConfig := defaultConfigId
          mMinRefreshRateFps := minRefreshRate
          mMaxRefreshRateFps := maxRefreshRate }
        ({ cfg1 with
            mAvailableRefreshRates := cfg1.constructAvailableRefreshRates },
          PolicyStatus.NO_ERROR, true)

/-- C9: when the requested policy differs from the stored one, `setPolicy`
returns `BAD_VALUE` exactly when the default config id is unknown or its
rate is outside `[min_fps, max_fps]`; on `BAD_VALUE` the whole state —
policy fields and available list included — is unchanged; otherwise it
returns `NO_ERROR` and installs the new policy and the re-derived available
list. -/
theorem setPolicy_badValue_characterization (cfg : RefreshRateConfigs)
    (defaultConfigId : Nat) (minRefreshRate maxRefreshRate : ℚ)
    (hch : defaultConfigId ≠ cfg.mDefaultConfig ∨
      minRefreshRate ≠ cfg.mMinRefreshRateFps ∨
      maxRefreshRate ≠ cfg.mMaxRefreshRateFps) :
    ((cfg.setPolicy defaultConfigId minRefreshRate maxRefreshRate).2.1
        = PolicyStatus.BAD_VALUE ↔
      cfg.findRate defaultConfigId = none ∨
      (∃ rr, cfg.findRate defaultConfigId = some rr ∧
        ¬ rr.inPolicy minRefreshRate maxRefreshRate)) ∧
    ((cfg.setPolicy defaultConfigId minRefreshRate maxRefreshRate).2.1
        = PolicyStatus.BAD_VALUE →
      (cfg.setPolicy defaultConfigId minRefreshRate maxRefreshRate).1 = cfg) ∧
    ((cfg.setPolicy defaultConfigId minRefreshRate maxRefreshRate).2.1
        = PolicyStatus.NO_ERROR →
      (cfg.setPolicy defaultConfigId minRefreshRate maxRefreshRate).1
        = (let cfg1 := { cfg with
            mDefaultConfig := defaultConfigId
            mMinRefreshRateFps := minRefreshRate
            mMaxRefreshRateFps := maxRefreshRate }
          { cfg1 with
            mAvailableRefreshRates := cfg1.constructAvailableRefreshRates })) := by
  have hnot : ¬¬(defaultConfigId ≠ cfg.mDefaultConfig ∨
      minRefreshRate ≠ cfg.mMinRefreshRateFps ∨
      maxRefreshRate ≠ cfg.mMaxRefreshRateFps) := not_not_intro hch
  rcases hfind : cfg.findRate defaultConfigId with _ | rr
  · have hstat : (cfg.setPolicy defaultConfigId minRefreshRate maxRefreshRate).2.1
        = PolicyStatus.BAD_VALUE := by
      simp [RefreshRateConfigs.setPolicy, hnot, hfind]
    refine ⟨?_, ?_, ?_⟩
    · rw [hstat]
      exact iff_of_true rfl (Or.inl rfl)
    · intro _
      simp [RefreshRateConfigs.setPolicy, hnot, hfind]
    · intro hok
      rw [hstat] at hok
      exact PolicyStatus.noConfusion hok
  · by_cases hpol : rr.inPolicy minRefreshRate maxRefreshRate
    · have hstat : (cfg.setPolicy defaultConfigId minRefreshRate maxRefreshRate).2.1
          = PolicyStatus.NO_ERROR := by
        simp [RefreshRateConfigs.setPolicy, hnot, hfind, hpol]
      refine ⟨?_, ?_, ?_⟩
      · rw [hstat]
        refine iff_of_false (fun h => PolicyStatus.noConfusion h) (fun hr => ?_)
        rcases hr with h | ⟨rr2, hrr2, hpol2⟩
        · exact Option.noConfusion h
        · injection hrr2 with h2
          subst h2
          exact hpol2 hpol
      · intro hbad
        rw [hstat] at hbad
        exact PolicyStatus.noConfusion hbad
      · intro _
        simp [RefreshRateConfigs.setPolicy, hnot, hfind, hpol]
    · have hstat : (cfg.setPolicy defaultConfigId minRefreshRate maxRefreshRate).2.1
          = PolicyStatus.BAD_VALUE := by
        simp [RefreshRateConfigs.setPolicy, hnot, hfind, hpol]
      refine ⟨?_, ?_, ?_⟩
      · rw [hstat]
        exact iff_of_true rfl (Or.inr ⟨rr, rfl, hpol⟩)
      · intro _
        simp [RefreshRateConfigs.setPolicy, hnot, hfind, hpol]
      · intro hok
        rw [hstat] at hok
        exact PolicyStatus.noConfusion hok

/-- Two-config state (60 Hz and 90 Hz, default 0, window [0, 120]) for the C9
witness. -/
def cfgEx : RefreshRateConfigs :=
  ⟨[(0, rate60), (1, rate90)], rate60, 0, 0, 120, [rate60, rate90]⟩

/-- Concrete run of `setPolicy_badValue_characterization`: requesting
`(default 1, min 60, max 90)` differs from the stored policy; config 1 is
known and 90 fps is within the window, so the status is not `BAD_VALUE` and
the new policy is installed. -/
theorem setPolicy_badValue_characterization_witness :
    ((cfgEx.setPolicy 1 60 90).2.1 = PolicyStatus.BAD_VALUE ↔
      cfgEx.findRate 1 = none ∨
      (∃ rr, cfgEx.findRate 1 = some rr ∧ ¬ rr.inPolicy 60 90)) ∧
    ((cfgEx.setPolicy 1 60 90).2.1 = PolicyStatus.BAD_VALUE →
      (cfgEx.setPolicy 1 60 90).1 = cfgEx) ∧
    ((cfgEx.setPolicy 1 60 90).2.1 = PolicyStatus.NO_ERROR →
      (cfgEx.setPolicy 1 60 90).1
        = (let cfg1 := { cfgEx with
            mDefaultConfig := 1
            mMinRefreshRateFps := 60
            mMaxRefreshRateFps := 90 }
          { cfg1 with
            mAvailableRefreshRates := cfg1.constructAvailableRefreshRates })) :=
  setPolicy_badValue_characterization cfgEx 1 60 90 (Or.inl (by decide))
